import Mathlib

/-!
Verification development for the registration chatbot route
(`messageRoute.ts`).  The dialogue engine is embedded shallowly:

* free-text field extraction (`collectFields`) with its three regex
  matchers (name pattern, date-of-birth pattern, budget-app pattern),
  substring gender matching and word-boundary yes/no matching;
* the step sequencer (`findNextField`), prompt composer (`promptFor`),
  fallback welcome message and generation prompt
  (`buildWelcomeMessage`, `welcomePrompt`);
* the orchestrator (`handleMessage`), with the outcome of the external
  text generator modelled as an `Option String` argument (`none` =
  generation failed, handled by the local fallback) and the outcome of
  the external record store insert as a `Bool` argument (`false` =
  insert error, which the route turns into a thrown
  "Failed to save registration" error).

JavaScript strings are modelled through `List Char`; `toLowerCase`,
`trim`, `includes` and the specific regular expressions of the route
are implemented character by character with the exact semantics the
source relies on (word boundaries, greedy quantifiers, ordered
alternation, truthiness of empty strings, object-spread merging where
an explicitly `undefined` value overwrites).
-/

/-! ## Character classes and basic JS string operations -/

/-- ASCII whitespace as matched by `\s` and removed by `trim`. -/
def isSpaceB (c : Char) : Bool :=
  c == ' ' || c == '\t' || c == '\n' || c == '\r' ||
    c == Char.ofNat 11 || c == Char.ofNat 12

def isDigitB (c : Char) : Bool :=
  48 ≤ c.toNat && c.toNat ≤ 57

def isAlphaB (c : Char) : Bool :=
  (65 ≤ c.toNat && c.toNat ≤ 90) || (97 ≤ c.toNat && c.toNat ≤ 122)

/-- The `\w` class: letters, digits and underscore. -/
def isWordCharB (c : Char) : Bool :=
  isAlphaB c || isDigitB c || c == '_'

/-- The capture class of the name and app-name patterns:
word characters, whitespace, apostrophe and hyphen. -/
def isNameCharB (c : Char) : Bool :=
  isWordCharB c || isSpaceB c || c == Char.ofNat 39 || c == '-'

/-- ASCII lowering, the fragment of `String.prototype.toLowerCase`
these patterns depend on. -/
def jsLowerChar (c : Char) : Char :=
  if 65 ≤ c.toNat && c.toNat ≤ 90 then Char.ofNat (c.toNat + 32) else c

def jsToLower (s : String) : String :=
  String.mk (s.toList.map jsLowerChar)

/-- `String.prototype.trim`. -/
def jsTrim (s : String) : String :=
  String.mk (((s.toList.dropWhile isSpaceB).reverse.dropWhile isSpaceB).reverse)

def isPrefixOfB : List Char → List Char → Bool
  | [], _ => true
  | _ :: _, [] => false
  | c :: cs, d :: ds => c == d && isPrefixOfB cs ds

def containsList (sub : List Char) : List Char → Bool
  | [] => sub.isEmpty
  | c :: rest => isPrefixOfB sub (c :: rest) || containsList sub rest

/-- `String.prototype.includes`. -/
def jsIncludes (s sub : String) : Bool :=
  containsList sub.toList s.toList

/-! ## The regular expressions of the route -/

/-- Case-insensitive literal match: returns the remaining input after
the literal when it is a prefix of the input. -/
def stripPrefixCI : List Char → List Char → Option (List Char)
  | [], s => some s
  | _ :: _, [] => none
  | p :: ps, c :: cs =>
    if jsLowerChar c == jsLowerChar p then stripPrefixCI ps cs else none

/-- After one of the literal alternatives: greedy `\s+` followed by the
capture `[A-Za-z][\w\s'-]` with a greedy 1-to-60 quantifier on the
class; no backtracking is possible because nothing follows the
capture and the class is disjoint from `\s` at the letter position. -/
def captureAfter : List Char → Option (List Char)
  | [] => none
  | r :: rs =>
    if isSpaceB r then
      match (r :: rs).dropWhile isSpaceB with
      | c :: cs =>
        if isAlphaB c then
          let tailCap := (cs.takeWhile isNameCharB).take 60
          if tailCap.isEmpty then none else some (c :: tailCap)
        else none
      | [] => none
    else none

/-- Ordered alternation at a fixed start position: each alternative is
tried in turn, together with its continuation, exactly as a
backtracking engine does. -/
def tryAlts : List (List Char) → List Char → Option (List Char)
  | [], _ => none
  | a :: as, s =>
    match stripPrefixCI a s with
    | some rest =>
      match captureAfter rest with
      | some cap => some cap
      | none => tryAlts as s
    | none => tryAlts as s

/-- Left-to-right scan with a word boundary `\b` before the literal:
a position qualifies when the previous character is not a word
character (or the position is the start of the input). -/
def scanCapture (alts : List (List Char)) : List Char → Bool → Option (List Char)
  | [], _ => none
  | c :: rest, prevWord =>
    match (if prevWord then none else tryAlts alts (c :: rest)) with
    | some cap => some cap
    | none => scanCapture alts rest (isWordCharB c)

def nameAlts : List (List Char) :=
  ["name is".toList, "i am".toList, ['i', Char.ofNat 39, 'm']]

def appAlts : List (List Char) :=
  ["app".toList, "application".toList, "called".toList, "using".toList]

/-- Capture of the name pattern of the route, case-insensitively. -/
def nameMatch (s : String) : Option String :=
  (scanCapture nameAlts s.toList false).map String.mk

/-- Capture of the budget-app pattern of the route. -/
def appMatch (s : String) : Option String :=
  (scanCapture appAlts s.toList false).map String.mk

/-- A whole word at the head of the input: the literal matches and the
next character (if any) is not a word character. -/
def wordAt (w : List Char) (s : List Char) : Bool :=
  match stripPrefixCI w s with
  | some rest =>
    match rest with
    | [] => true
    | c :: _ => !isWordCharB c
  | none => false

/-- Word-boundary test for an alternation of literal words, as in the
yes/no synonym regexes of the route. -/
def scanWords (ws : List (List Char)) : List Char → Bool → Bool
  | [], _ => false
  | c :: rest, prevWord =>
    (!prevWord && ws.any (fun w => wordAt w (c :: rest))) ||
      scanWords ws rest (isWordCharB c)

def yesWords : List (List Char) :=
  ["yes".toList, "yep".toList, "yeah".toList, "sure".toList, "true".toList]

def noWords : List (List Char) :=
  ["no".toList, "nope".toList, "nah".toList, "false".toList]

/-- Ten characters shaped like a date at the head of the input, with a
trailing word boundary. -/
def dobAt : List Char → Option (List Char)
  | a :: b :: c :: d :: e :: f :: g :: h :: i :: j :: rest =>
    if isDigitB a && isDigitB b && isDigitB c && isDigitB d && e == '-' &&
        isDigitB f && isDigitB g && h == '-' && isDigitB i && isDigitB j &&
        (match rest with | [] => true | r :: _ => !isWordCharB r) then
      some [a, b, c, d, e, f, g, h, i, j]
    else none
  | _ => none

/-- Leftmost match of the search pattern with word boundaries on both
sides of the ten date characters. -/
def dobScan : List Char → Bool → Option (List Char)
  | [], _ => none
  | c :: rest, prevWord =>
    match (if prevWord then none else dobAt (c :: rest)) with
    | some m => some m
    | none => dobScan rest (isWordCharB c)

def monthValidB (m1 m2 : Char) : Bool :=
  (m1 == '0' && isDigitB m2 && !(m2 == '0')) ||
    (m1 == '1' && (m2 == '0' || m2 == '1' || m2 == '2'))

def dayValidB (d1 d2 : Char) : Bool :=
  (d1 == '0' && isDigitB d2 && !(d2 == '0')) ||
    ((d1 == '1' || d1 == '2') && isDigitB d2) ||
    (d1 == '3' && (d2 == '0' || d2 == '1'))

/-- The anchored validation regex `dobRegex` of the route: a full match
of four digits, a month 01 to 12 and a day 01 to 31. -/
def dobRegexTest (s : String) : Bool :=
  match s.toList with
  | [a, b, c, d, e, f, g, h, i, j] =>
    isDigitB a && isDigitB b && isDigitB c && isDigitB d && e == '-' &&
      monthValidB f g && h == '-' && dayValidB i j
  | _ => false

/-! ## Data model -/

inductive Gender where
  | male
  | female
  | other
deriving DecidableEq

def genderStr : Gender → String
  | .male => "male"
  | .female => "female"
  | .other => "other"

inductive RegistrationStep where
  | name
  | dateOfBirth
  | gender
  | usesBudgetApp
  | budgetAppName
deriving DecidableEq

/-- Partial registration data: every field may still be absent. -/
structure SessionData where
  name : Option String
  dateOfBirth : Option String
  gender : Option Gender
  usesBudgetApp : Option Bool
  budgetAppName : Option String
deriving DecidableEq

structure SessionState where
  data : SessionData
  currentStep : RegistrationStep
  completed : Bool
deriving DecidableEq

/-- JS truthiness of a possibly absent string field: set when present
and not the empty string. -/
def strSet : Option String → Bool
  | none => false
  | some s => !(s == "")

structure ApiResponse where
  reply : String
  done : Bool
  data : Option SessionData
deriving DecidableEq

/-! ## Field extraction (`collectFields`) -/

def extractName (d : SessionData) (step : RegistrationStep) (msg : String) :
    Option String :=
  if strSet d.name then none
  else
    match nameMatch msg with
    | some cap => some (jsTrim cap)
    | none =>
      if step == RegistrationStep.name then some (jsTrim msg) else none

def extractDob (d : SessionData) (msg : String) : Option String :=
  if strSet d.dateOfBirth then none
  else
    match dobScan msg.toList false with
    | some m => if dobRegexTest (String.mk m) then some (String.mk m) else none
    | none => none

def extractGender (d : SessionData) (lower : String) : Option Gender :=
  if d.gender.isSome then none
  else
    if jsIncludes lower "male" then some Gender.male
    else if jsIncludes lower "female" then some Gender.female
    else if jsIncludes lower "other" then some Gender.other
    else none

def extractUses (d : SessionData) (lower : String) : Option Bool :=
  if d.usesBudgetApp.isNone then
    if scanWords yesWords lower.toList false then some true
    else if scanWords noWords lower.toList false then some false
    else none
  else none

/-- JS truthiness of the optional boolean. -/
def usesTruthy (o : Option Bool) : Bool :=
  o == some true

/-- Updates to `budgetAppName`: the outer `Option` is key presence in
the update object, the inner `Option` the (possibly explicitly
`undefined`) value; a present-but-`undefined` entry overwrites on
spread, which is how answering "no" forces the field absent. -/
def extractApp (d : SessionData) (step : RegistrationStep)
    (uUses : Option Bool) (msg : String) : Option (Option String) :=
  let forced : Option (Option String) :=
    if uUses == some false then some none else none
  if (usesTruthy d.usesBudgetApp || uUses == some true) &&
      !strSet d.budgetAppName then
    match appMatch msg with
    | some cap => some (some (jsTrim cap))
    | none =>
      if (usesTruthy d.usesBudgetApp || uUses == some true) &&
          step == RegistrationStep.budgetAppName then
        some (some (jsTrim msg))
      else forced
  else forced

/-- Object-spread merge of the collected updates into the session
data; a present key overwrites even when its value is `undefined`. -/
def mergeData (d : SessionData) (uName uDob : Option String)
    (uGender : Option Gender) (uUses : Option Bool)
    (uApp : Option (Option String)) : SessionData where
  name := match uName with | some v => some v | none => d.name
  dateOfBirth := match uDob with | some v => some v | none => d.dateOfBirth
  gender := match uGender with | some v => some v | none => d.gender
  usesBudgetApp := match uUses with | some v => some v | none => d.usesBudgetApp
  budgetAppName := match uApp with | some v => v | none => d.budgetAppName

def collectFields (s : SessionState) (msg : String) : SessionState :=
  let lower := jsToLower msg
  let uName := extractName s.data s.currentStep msg
  let uDob := extractDob s.data msg
  let uGender := extractGender s.data lower
  let uUses := extractUses s.data lower
  let uApp := extractApp s.data s.currentStep uUses msg
  { s with data := mergeData s.data uName uDob uGender uUses uApp }

/-! ## Step sequencer, prompt composer -/

def steps : List RegistrationStep :=
  [.name, .dateOfBirth, .gender, .usesBudgetApp, .budgetAppName]

/-- The per-step unset test `data[step] === undefined || data[step] === ""`. -/
def fieldUnset (d : SessionData) : RegistrationStep → Bool
  | .name => !strSet d.name
  | .dateOfBirth => !strSet d.dateOfBirth
  | .gender => d.gender.isNone
  | .usesBudgetApp => d.usesBudgetApp.isNone
  | .budgetAppName => !strSet d.budgetAppName

def findNextFieldAux (d : SessionData) : List RegistrationStep → Option RegistrationStep
  | [] => none
  | st :: rest =>
    if st == RegistrationStep.budgetAppName && d.usesBudgetApp == some false then
      findNextFieldAux d rest
    else if fieldUnset d st then some st
    else findNextFieldAux d rest

def findNextField (d : SessionData) : Option RegistrationStep :=
  findNextFieldAux d steps

def promptFor (st : RegistrationStep) (d : SessionData) : String :=
  match st with
  | .name => "What is your name?"
  | .dateOfBirth => "What is your date of birth? (YYYY-MM-DD)"
  | .gender => "What is your gender? Please reply \"male\", \"female\", or \"other\"."
  | .usesBudgetApp => "Do you use a budget app? (yes/no)"
  | .budgetAppName =>
    if usesTruthy d.usesBudgetApp then
      "What is the name of the budget app you use?"
    else "What is the name of your budget app?"

/-! ## Welcome message and generation prompt -/

/-- The deterministic fallback template of `buildWelcomeMessage`. -/
def fallbackMessage (d : SessionData) : String :=
  let name := match d.name with | some n => n | none => "friend"
  let dob := match d.dateOfBirth with
    | some s => if s == "" then "" else ", born " ++ s
    | none => ""
  let gender := match d.gender with
    | some g => ", gender: " ++ genderStr g
    | none => ""
  let budgetApp := match d.usesBudgetApp with
    | none => ""
    | some true =>
      ", budget app: " ++ (match d.budgetAppName with | some a => a | none => "unspecified")
    | some false => ", no budget app"
  "Registration complete for " ++ name ++ dob ++ gender ++ budgetApp ++ ". Welcome!"

/-- The prompt handed to the external text generator by
`buildWelcomeMessage`, line by line. -/
def welcomePrompt (d : SessionData) : String :=
  ("Create a warm, concise welcome message for a user who completed registration.\nInclude their name and any provided details. Keep it under 40 words and avoid bullet points.\nDetails:" ++
    ("\n- Name: " ++ (match d.name with | some n => n | none => "friend"))) ++
  ("\n- Date of birth: " ++ (match d.dateOfBirth with | some s => s | none => "not provided")) ++
  ("\n- Gender: " ++ (match d.gender with | some g => genderStr g | none => "not provided")) ++
  ("\n- Uses budget app: " ++ (match d.usesBudgetApp with
    | none => "not provided" | some true => "true" | some false => "false")) ++
  ("\n- Budget app name: " ++ (match d.budgetAppName with | some a => a | none => "not provided"))

/-- `buildWelcomeMessage`: the generator outcome is an argument,
`some reply` for a successful generation on `welcomePrompt`, `none`
for a failure, recovered with the deterministic fallback. -/
def buildWelcomeMessage (d : SessionData) (gen : Option String) : String :=
  match gen with
  | some s => s
  | none => fallbackMessage d

/-! ## Orchestrator (`POST /message` with a `userId` present) -/

/-- One request of the `/message` route for a loaded session.  `gen` is
the text-generator outcome, `persistOk` the record-store outcome; on an
insert error the route throws after having already marked the session
completed with the frozen final data. -/
def handleMessage (s : SessionState) (message : Option String)
    (gen : Option String) (persistOk : Bool) :
    SessionState × Except String ApiResponse :=
  if s.completed then
    (s, Except.ok ⟨buildWelcomeMessage s.data gen, true, some s.data⟩)
  else
    let text := message.getD ""
    if jsTrim text == "" then
      ({ s with currentStep := RegistrationStep.name },
        Except.ok ⟨"What is your name?", false, none⟩)
    else
      let s1 := collectFields s text
      match findNextField s1.data with
      | none =>
        let s2 := { s1 with completed := true }
        if persistOk then
          (s2, Except.ok ⟨buildWelcomeMessage s2.data gen, true, some s2.data⟩)
        else (s2, Except.error "Failed to save registration")
      | some nf =>
        ({ s1 with currentStep := nf },
          Except.ok ⟨promptFor nf s1.data, false, none⟩)

/-- The session created on the first message of a fresh user id. -/
def freshSession : SessionState :=
  { data := ⟨none, none, none, none, none⟩
    currentStep := RegistrationStep.name
    completed := false }

/-- A sequence of requests from one fresh user, with a succeeding
record store and a failing text generator (so replies use the
deterministic fallback); returns the session and the last response. -/
def runConversation (msgs : List String) :
    SessionState × Except String ApiResponse :=
  msgs.foldl (fun acc m => handleMessage acc.1 (some m) none true)
    (freshSession, Except.ok ⟨"", false, none⟩)

/-- Field data evolution under an arbitrary sequence of messages, each
processed with an arbitrary current step and completed flag. -/
def applyMessages (d : SessionData) (msgs : List (String × RegistrationStep × Bool)) :
    SessionData :=
  msgs.foldl (fun dd m => (collectFields ⟨dd, m.2.1, m.2.2⟩ m.1).data) d

/-- Digits-to-string date rendering used to quantify over all dates of
the claimed format. -/
def digitChar (n : Nat) : Char := Char.ofNat (48 + n)

def pad2 (n : Nat) : List Char := [digitChar (n / 10 % 10), digitChar (n % 10)]

def pad4 (n : Nat) : List Char :=
  [digitChar (n / 1000 % 10), digitChar (n / 100 % 10),
    digitChar (n / 10 % 10), digitChar (n % 10)]

def formatDate (y m d : Nat) : String :=
  String.mk (pad4 y ++ '-' :: pad2 m ++ '-' :: pad2 d)

/-! ## Helper lemmas on containment -/

theorem containsList_nil_sub (l : List Char) : containsList [] l = true := by
  induction l with
  | nil => rfl
  | cons c rest ih => simp [containsList, isPrefixOfB]

theorem isPrefixOfB_append (t l b : List Char) (h : isPrefixOfB t l = true) :
    isPrefixOfB t (l ++ b) = true := by
  induction t generalizing l with
  | nil => rfl
  | cons c cs ih =>
    cases l with
    | nil => simp [isPrefixOfB] at h
    | cons d ds =>
      simp only [isPrefixOfB, Bool.and_eq_true] at h ⊢
      exact ⟨h.1, ih ds h.2⟩

theorem containsList_of_isPrefixOfB (t l : List Char) (h : isPrefixOfB t l = true) :
    containsList t l = true := by
  cases l with
  | nil =>
    cases t with
    | nil => rfl
    | cons c cs => simp [isPrefixOfB] at h
  | cons c cs => simp [containsList, h]

theorem containsList_of_prefix_drop (a t l : List Char)
    (h : isPrefixOfB (a ++ t) l = true) : containsList t l = true := by
  induction a generalizing l with
  | nil => exact containsList_of_isPrefixOfB t l h
  | cons x a ih =>
    cases l with
    | nil => simp [isPrefixOfB] at h
    | cons c cs =>
      simp only [List.cons_append, isPrefixOfB, Bool.and_eq_true] at h
      simp [containsList, ih cs h.2]

theorem containsList_sub (a t l : List Char) (h : containsList (a ++ t) l = true) :
    containsList t l = true := by
  induction l with
  | nil =>
    simp only [containsList, List.isEmpty_eq_true, List.append_eq_nil] at h
    simp [containsList, h.2]
  | cons c rest ih =>
    simp only [containsList, Bool.or_eq_true] at h ⊢
    rcases h with h | h
    · have := containsList_of_prefix_drop a t (c :: rest) h
      simp only [containsList, Bool.or_eq_true] at this
      exact this
    · exact Or.inr (ih h)

theorem containsList_append_right (t a b : List Char)
    (h : containsList t b = true) : containsList t (a ++ b) = true := by
  induction a with
  | nil => simpa using h
  | cons c a ih => simp [containsList, ih]

theorem containsList_append_left (t a b : List Char)
    (h : containsList t a = true) : containsList t (a ++ b) = true := by
  induction a with
  | nil =>
    simp only [containsList, List.isEmpty_eq_true] at h
    subst h
    simpa using containsList_nil_sub b
  | cons c a ih =>
    simp only [containsList, Bool.or_eq_true] at h ⊢
    rcases h with h | h
    · exact Or.inl (by simpa using isPrefixOfB_append t (c :: a) b h)
    · exact Or.inr (ih h)

theorem toList_append (a b : String) : (a ++ b).toList = a.toList ++ b.toList := by
  cases a
  cases b
  rfl

/-- Any string whose lowercase contains "female" also contains "male":
the latter is a suffix of the former. -/
theorem jsIncludes_female_male (s : String) (h : jsIncludes s "female" = true) :
    jsIncludes s "male" = true := by
  have e : "female".toList = ['f', 'e'] ++ "male".toList := by decide
  unfold jsIncludes at h ⊢
  rw [e] at h
  exact containsList_sub _ _ _ h

/-! ## Helper lemmas on the extractor and sequencer -/

theorem collectFields_currentStep (s : SessionState) (msg : String) :
    (collectFields s msg).currentStep = s.currentStep := rfl

theorem collectFields_completed (s : SessionState) (msg : String) :
    (collectFields s msg).completed = s.completed := rfl

/-- With `usesBudgetApp` already `false`, one extraction pass changes
neither `usesBudgetApp` nor `budgetAppName`. -/
theorem collect_uses_false (d : SessionData) (st : RegistrationStep) (b : Bool)
    (msg : String) (h : d.usesBudgetApp = some false) :
    (collectFields ⟨d, st, b⟩ msg).data.usesBudgetApp = some false ∧
    (collectFields ⟨d, st, b⟩ msg).data.budgetAppName = d.budgetAppName := by
  have hu : extractUses d (jsToLower msg) = none := by
    simp [extractUses, h]
  have ha : extractApp d st none msg = none := by
    simp [extractApp, usesTruthy, h]
  constructor <;>
    simp [collectFields, mergeData, hu, ha, h]

/-- The sequencer returns `budgetAppName` from a step list only when
`usesBudgetApp` is not `false`: the skip guard intercepts it. -/
theorem findNextFieldAux_uses_ne_false (d : SessionData) (l : List RegistrationStep)
    (h : findNextFieldAux d l = some RegistrationStep.budgetAppName) :
    d.usesBudgetApp ≠ some false := by
  induction l with
  | nil => simp [findNextFieldAux] at h
  | cons st rest ih =>
    simp only [findNextFieldAux] at h
    split at h
    · exact ih h
    · split at h
      · rename_i hskip hunset
        have hst : st = RegistrationStep.budgetAppName := by simpa using h
        subst hst
        simp only [beq_self_eq_true, Bool.true_and, Bool.and_eq_true, not_and,
          Bool.not_eq_true] at hskip
        intro hc
        rw [hc] at hskip
        simp at hskip
      · exact ih h

/-- The sequencer never selects `budgetAppName` when `usesBudgetApp`
is `false`. -/
theorem findNextField_ne_budgetAppName (d : SessionData)
    (h : d.usesBudgetApp = some false) :
    findNextField d ≠ some RegistrationStep.budgetAppName := by
  intro hc
  exact absurd h (findNextFieldAux_uses_ne_false d steps hc)

/-- The sequencer selects `budgetAppName` only when `usesBudgetApp` is
already `true`: a `none` value would have been selected first, and a
`false` value skips the field. -/
theorem findNextField_uses_true (d : SessionData)
    (h : findNextField d = some RegistrationStep.budgetAppName) :
    d.usesBudgetApp = some true := by
  have hne := findNextFieldAux_uses_ne_false d steps h
  cases hu : d.usesBudgetApp with
  | none =>
    exfalso
    simp [findNextField, steps, findNextFieldAux, fieldUnset, hu] at h
    split_ifs at h <;> simp_all
  | some b =>
    cases b with
    | false => exact absurd hu hne
    | true => rfl

/-! ## Claim theorems -/

/-- Claim C1, counterexample: with gender unset, the message "female"
sets gender to "male", not "female", because "female" contains "male"
as a substring and the "male" containment test runs first. -/
theorem gender_female_claim_cex :
    (collectFields ⟨⟨some "Ada", some "1990-05-10", none, none, none⟩,
        RegistrationStep.gender, false⟩ "female").data.gender = some Gender.male ∧
    ¬ (collectFields ⟨⟨some "Ada", some "1990-05-10", none, none, none⟩,
        RegistrationStep.gender, false⟩ "female").data.gender = some Gender.female := by
  decide

/-- Claim C1, amended: gender extraction tests lowercase containment
of "male", then "female", then "other", first match wins; since
"female" contains "male", every message whose lowercased text contains
"female" takes the "male" branch and sets gender to "male" (when
gender is unset), and the extractor can never set gender to
"female". -/
theorem gender_extraction_order (s : SessionState) (msg : String) :
    (s.data.gender = none → jsIncludes (jsToLower msg) "female" = true →
      (collectFields s msg).data.gender = some Gender.male) ∧
    (s.data.gender ≠ some Gender.female →
      (collectFields s msg).data.gender ≠ some Gender.female) := by
  constructor
  · intro hg hf
    have hm := jsIncludes_female_male (jsToLower msg) hf
    simp [collectFields, mergeData, extractGender, hg, hm]
  · intro hne
    cases hg : s.data.gender with
    | some g =>
      have : extractGender s.data (jsToLower msg) = none := by
        simp [extractGender, hg]
      simp [collectFields, mergeData, this, hg]
      rw [hg] at hne
      simpa using hne
    | none =>
      by_cases hm : jsIncludes (jsToLower msg) "male" = true
      · simp [collectFields, mergeData, extractGender, hg, hm]
      · have hm2 : jsIncludes (jsToLower msg) "male" = false := by
          cases hmv : jsIncludes (jsToLower msg) "male" with
          | false => rfl
          | true => exact absurd hmv hm
        have hf : jsIncludes (jsToLower msg) "female" = false := by
          cases hfv : jsIncludes (jsToLower msg) "female" with
          | false => rfl
          | true => exact absurd (jsIncludes_female_male _ hfv) hm
        cases ho : jsIncludes (jsToLower msg) "other" <;>
          simp [collectFields, mergeData, extractGender, hg, hm2, hf, ho]

theorem gender_extraction_order_witness :
    (collectFields ⟨⟨some "Ada", some "1990-05-10", none, none, none⟩,
        RegistrationStep.gender, false⟩ "I am female").data.gender = some Gender.male ∧
    (collectFields ⟨⟨some "Ada", some "1990-05-10", none, none, none⟩,
        RegistrationStep.gender, false⟩ "I am female").data.gender ≠ some Gender.female :=
  ⟨(gender_extraction_order _ "I am female").1 rfl (by decide),
    (gender_extraction_order _ "I am female").2 (by decide)⟩

/-- Claim C2: for a fresh session, the messages "", "Ada",
"1990-05-10", "male", "no" end with a done response whose data is
name "Ada", date of birth "1990-05-10", gender male, usesBudgetApp
false and budgetAppName absent. -/
theorem endToEnd_u1 :
    (runConversation ["", "Ada", "1990-05-10", "male", "no"]).2 =
      Except.ok
        ⟨"Registration complete for Ada, born 1990-05-10, gender: male, no budget app. Welcome!",
          true,
          some ⟨some "Ada", some "1990-05-10", some Gender.male, some false, none⟩⟩ := by
  rfl

/-- Claim C5: on a non-completed session, a message that is empty or
whitespace after trimming resets the current step to name, replies
with the name prompt, and leaves the field set and the completed flag
unchanged. -/
theorem empty_message_resets (s : SessionState) (message : Option String)
    (gen : Option String) (persistOk : Bool)
    (h1 : s.completed = false) (h2 : jsTrim (message.getD "") = "") :
    handleMessage s message gen persistOk =
      ({ s with currentStep := RegistrationStep.name },
        Except.ok ⟨"What is your name?", false, none⟩) := by
  simp [handleMessage, h1, h2]

theorem empty_message_resets_witness :
    handleMessage ⟨⟨some "Ada", none, none, none, none⟩, RegistrationStep.dateOfBirth, false⟩
        (some "   ") none true =
      (⟨⟨some "Ada", none, none, none, none⟩, RegistrationStep.name, false⟩,
        Except.ok ⟨"What is your name?", false, none⟩) :=
  empty_message_resets _ _ _ _ rfl (by decide)

/-- Claim C6: when the sequencer returns none and the record store
insert fails, the request propagates the error, and the session keeps
the frozen field set and stays marked completed despite the failed
persistence. -/
theorem persist_failure_completes (s : SessionState) (msg : String) (gen : Option String)
    (h1 : s.completed = false) (h2 : (jsTrim msg == "") = false)
    (h3 : findNextField (collectFields s msg).data = none) :
    handleMessage s (some msg) gen false =
      ({ collectFields s msg with completed := true },
        Except.error "Failed to save registration") := by
  simp [handleMessage, h1, h2, h3]

theorem persist_failure_completes_witness :
    handleMessage ⟨⟨some "Ada", some "1990-05-10", some Gender.male, some false, none⟩,
        RegistrationStep.usesBudgetApp, false⟩ (some "hi") none false =
      (⟨⟨some "Ada", some "1990-05-10", some Gender.male, some false, none⟩,
        RegistrationStep.usesBudgetApp, true⟩,
        Except.error "Failed to save registration") :=
  persist_failure_completes _ "hi" none rfl (by decide) (by decide)

/-- Claim C3: once `usesBudgetApp` is `false` (and `budgetAppName`
absent, as the route forces at that moment), any sequence of further
messages, under any current step, keeps `usesBudgetApp` at `false` and
`budgetAppName` absent, and the sequencer never returns
`budgetAppName`. -/
theorem usesFalse_locks_budgetAppName (d : SessionData)
    (h : d.usesBudgetApp = some false) (hb : d.budgetAppName = none)
    (msgs : List (String × RegistrationStep × Bool)) :
    (applyMessages d msgs).usesBudgetApp = some false ∧
    (applyMessages d msgs).budgetAppName = none ∧
    findNextField (applyMessages d msgs) ≠ some RegistrationStep.budgetAppName := by
  induction msgs generalizing d with
  | nil => exact ⟨h, hb, findNextField_ne_budgetAppName d h⟩
  | cons m rest ih =>
    have step := collect_uses_false d m.2.1 m.2.2 m.1 h
    simp only [applyMessages, List.foldl_cons] at *
    exact ih _ step.1 (step.2.trans hb)

theorem usesFalse_locks_budgetAppName_witness :
    (applyMessages ⟨some "Ada", some "1990-05-10", some Gender.male, some false, none⟩
        [("I use an app called Mint", RegistrationStep.budgetAppName, false)]).budgetAppName =
      none ∧
    findNextField (applyMessages
        ⟨some "Ada", some "1990-05-10", some Gender.male, some false, none⟩
        [("I use an app called Mint", RegistrationStep.budgetAppName, false)]) ≠
      some RegistrationStep.budgetAppName :=
  ⟨(usesFalse_locks_budgetAppName _ rfl rfl _).2.1,
    (usesFalse_locks_budgetAppName _ rfl rfl _).2.2⟩

/-- Claim C4: on a session where all five fields are set (non-absent
and non-empty), the extractor changes nothing, whatever the
message. -/
theorem extractor_noop_when_filled (s : SessionState) (msg : String)
    (hn : strSet s.data.name = true) (hd : strSet s.data.dateOfBirth = true)
    (hg : s.data.gender.isSome = true) (hu : s.data.usesBudgetApp.isSome = true)
    (hb : strSet s.data.budgetAppName = true) :
    collectFields s msg = s := by
  obtain ⟨g, hg2⟩ := Option.isSome_iff_exists.mp hg
  obtain ⟨u, hu2⟩ := Option.isSome_iff_exists.mp hu
  have h1 : extractName s.data s.currentStep msg = none := by
    simp [extractName, hn]
  have h2 : extractDob s.data msg = none := by
    simp [extractDob, hd]
  have h3 : extractGender s.data (jsToLower msg) = none := by
    simp [extractGender, hg2]
  have h4 : extractUses s.data (jsToLower msg) = none := by
    simp [extractUses, hu2]
  have h5 : extractApp s.data s.currentStep none msg = none := by
    simp [extractApp, hb]
  simp only [collectFields, h1, h2, h3, h4, h5]
  rfl

theorem extractor_noop_when_filled_witness :
    collectFields ⟨⟨some "Ada", some "1990-05-10", some Gender.male, some true, some "Mint"⟩,
        RegistrationStep.budgetAppName, false⟩
      "My name is Bob, 2000-01-01, female, yes, using Pocket" =
      ⟨⟨some "Ada", some "1990-05-10", some Gender.male, some true, some "Mint"⟩,
        RegistrationStep.budgetAppName, false⟩ :=
  extractor_noop_when_filled _ _ rfl rfl rfl rfl rfl

/-- Claim C9: whenever the sequencer selects `budgetAppName`,
`usesBudgetApp` is `true` in the field set, so the prompt composer
produces the "you use" phrasing and its generic false-branch question
is dead code. -/
theorem budgetAppName_prompt_reachability (d : SessionData)
    (h : findNextField d = some RegistrationStep.budgetAppName) :
    d.usesBudgetApp = some true ∧
    promptFor RegistrationStep.budgetAppName d =
      "What is the name of the budget app you use?" := by
  have hu := findNextField_uses_true d h
  exact ⟨hu, by simp [promptFor, usesTruthy, hu]⟩

theorem budgetAppName_prompt_reachability_witness :
    (⟨some "Ada", some "1990-05-10", some Gender.male, some true, none⟩ :
        SessionData).usesBudgetApp = some true ∧
    promptFor RegistrationStep.budgetAppName
        ⟨some "Ada", some "1990-05-10", some Gender.male, some true, none⟩ =
      "What is the name of the budget app you use?" :=
  budgetAppName_prompt_reachability _ (by decide)

/-- Claim C10: when the name is unset, the current step is name, and
the message matches no name pattern, the entire trimmed message of any
length becomes the name; the 2-to-61 character limit binds only
pattern captures. -/
theorem name_freeform_fallback (s : SessionState) (msg : String)
    (h1 : strSet s.data.name = false) (h2 : s.currentStep = RegistrationStep.name)
    (h3 : nameMatch msg = none) :
    (collectFields s msg).data.name = some (jsTrim msg) := by
  have he : extractName s.data s.currentStep msg = some (jsTrim msg) := by
    simp [extractName, h1, h2, h3]
  simp [collectFields, mergeData, he]

theorem name_freeform_fallback_witness :
    (collectFields freshSession "X").data.name = some "X" ∧
    (collectFields freshSession
        "aaaaaaaaaaaaaaaaaaaaaaaaaaaaaaaaaaaaaaaaaaaaaaaaaaaaaaaaaaaaaaaaaaaaaa").data.name =
      some "aaaaaaaaaaaaaaaaaaaaaaaaaaaaaaaaaaaaaaaaaaaaaaaaaaaaaaaaaaaaaaaaaaaaaa" ∧
    ("aaaaaaaaaaaaaaaaaaaaaaaaaaaaaaaaaaaaaaaaaaaaaaaaaaaaaaaaaaaaaaaaaaaaaa" : String).length =
      70 := by
  refine ⟨?_, ?_, by decide⟩
  · have h := name_freeform_fallback freshSession "X" rfl rfl (by decide)
    rw [show jsTrim "X" = "X" from by decide] at h
    exact h
  · have h := name_freeform_fallback freshSession
      "aaaaaaaaaaaaaaaaaaaaaaaaaaaaaaaaaaaaaaaaaaaaaaaaaaaaaaaaaaaaaaaaaaaaaa" rfl rfl
      (by decide)
    rw [show jsTrim "aaaaaaaaaaaaaaaaaaaaaaaaaaaaaaaaaaaaaaaaaaaaaaaaaaaaaaaaaaaaaaaaaaaaaa" =
      "aaaaaaaaaaaaaaaaaaaaaaaaaaaaaaaaaaaaaaaaaaaaaaaaaaaaaaaaaaaaaaaaaaaaaa" from
      by decide] at h
    exact h

theorem isDigitB_digitChar (k : Nat) (hk : k < 10) : isDigitB (digitChar k) = true := by
  interval_cases k <;> decide

theorem monthValidB_pad (m : Nat) (h1 : 1 ≤ m) (h2 : m ≤ 12) :
    monthValidB (digitChar (m / 10 % 10)) (digitChar (m % 10)) = true := by
  interval_cases m <;> decide

theorem dayValidB_pad (d : Nat) (h1 : 1 ≤ d) (h2 : d ≤ 31) :
    dayValidB (digitChar (d / 10 % 10)) (digitChar (d % 10)) = true := by
  interval_cases d <;> decide

/-- Claim C8, counterexample: "x1990-02-31" contains the in-range
substring "1990-02-31", yet extraction leaves dateOfBirth unset: the
search pattern requires a word boundary before the four digits and the
preceding "x" is a word character. -/
theorem dob_boundary_cex :
    jsIncludes "x1990-02-31" "1990-02-31" = true ∧
    (collectFields ⟨⟨some "Ada", none, some Gender.male, some true, some "Mint"⟩,
        RegistrationStep.dateOfBirth, false⟩ "x1990-02-31").data.dateOfBirth = none := by
  decide

/-- Claim C8, amended: the validation regex accepts every string of
shape four digits, dash, month 01 to 12, dash, day 01 to 31, with no
calendar awareness (Feb 31 included); extraction applies it to the
first word-boundary-delimited date-shaped substring, so the message
"1990-02-31" sets dateOfBirth to "1990-02-31" when the field is
unset, while in "x1990-02-31" the substring lacks a leading boundary
and the field stays as it was. -/
theorem dob_format_acceptance (y m d : Nat) (_hy : y ≤ 9999)
    (hm1 : 1 ≤ m) (hm2 : m ≤ 12) (hd1 : 1 ≤ d) (hd2 : d ≤ 31) :
    dobRegexTest (formatDate y m d) = true ∧
    (∀ s : SessionState, strSet s.data.dateOfBirth = false →
      (collectFields s "1990-02-31").data.dateOfBirth = some "1990-02-31") ∧
    (∀ s : SessionState, strSet s.data.dateOfBirth = false →
      (collectFields s "x1990-02-31").data.dateOfBirth = s.data.dateOfBirth) := by
  refine ⟨?_, ?_, ?_⟩
  · simp only [dobRegexTest, formatDate, pad4, pad2, String.toList, List.cons_append,
      List.nil_append, Bool.and_eq_true]
    refine ⟨⟨⟨⟨⟨⟨⟨?_, ?_⟩, ?_⟩, ?_⟩, by decide⟩, monthValidB_pad m hm1 hm2⟩, by decide⟩,
      dayValidB_pad d hd1 hd2⟩ <;>
      exact isDigitB_digitChar _ (Nat.mod_lt _ (by norm_num))
  · intro s hs
    have he : extractDob s.data "1990-02-31" = some "1990-02-31" := by
      simp only [extractDob, hs]
      decide
    simp [collectFields, mergeData, he]
  · intro s hs
    have he : extractDob s.data "x1990-02-31" = none := by
      simp only [extractDob, hs]
      decide
    simp [collectFields, mergeData, he]

theorem dob_format_acceptance_witness :
    dobRegexTest (formatDate 1990 2 31) = true ∧
    (collectFields freshSession "1990-02-31").data.dateOfBirth = some "1990-02-31" ∧
    (collectFields freshSession "x1990-02-31").data.dateOfBirth = none := by
  have h := dob_format_acceptance 1990 2 31 (by decide) (by decide) (by decide)
    (by decide) (by decide)
  exact ⟨h.1, h.2.1 freshSession rfl, h.2.2 freshSession rfl⟩

set_option maxRecDepth 40000 in
/-- Claim C7, counterexample: an unknown name is not omitted but
rendered "friend" in the fallback and in the generation prompt, and an
unknown budget-app name (with `usesBudgetApp` true) is not omitted but
rendered "unspecified" in the fallback. -/
theorem fallback_unknown_fields_cex :
    fallbackMessage ⟨none, none, none, some true, none⟩ =
      "Registration complete for friend, budget app: unspecified. Welcome!" ∧
    jsIncludes (welcomePrompt ⟨none, none, none, none, none⟩) "- Name: friend" = true ∧
    jsIncludes (welcomePrompt ⟨none, none, none, none, none⟩) "- Name: not provided" =
      false := by
  decide

/-- Claim C7, amended: when generation fails the reply is the
deterministic template "Registration complete for NAME, born DOB,
gender: G, budget app: APP / , no budget app. Welcome!", where the
born, gender and budget segments are omitted for fields not yet known,
an unknown name is rendered "friend" and an unknown budget-app name
(with `usesBudgetApp` true) is rendered "unspecified"; in the
generation prompt the unknown date of birth, gender, budget-app usage
and budget-app name are rendered "not provided" while an unknown name
is rendered "friend". -/
theorem welcome_fallback_and_prompt (d : SessionData) :
    buildWelcomeMessage d none =
      "Registration complete for " ++
        (match d.name with | some n => n | none => "friend") ++
        (match d.dateOfBirth with
          | some s => if s == "" then "" else ", born " ++ s
          | none => "") ++
        (match d.gender with | some g => ", gender: " ++ genderStr g | none => "") ++
        (match d.usesBudgetApp with
          | none => ""
          | some true => ", budget app: " ++
              (match d.budgetAppName with | some a => a | none => "unspecified")
          | some false => ", no budget app") ++ ". Welcome!" ∧
    (d.name = none → jsIncludes (welcomePrompt d) "- Name: friend" = true) ∧
    (d.dateOfBirth = none →
      jsIncludes (welcomePrompt d) "- Date of birth: not provided" = true) ∧
    (d.gender = none → jsIncludes (welcomePrompt d) "- Gender: not provided" = true) ∧
    (d.usesBudgetApp = none →
      jsIncludes (welcomePrompt d) "- Uses budget app: not provided" = true) ∧
    (d.budgetAppName = none →
      jsIncludes (welcomePrompt d) "- Budget app name: not provided" = true) := by
  refine ⟨rfl, ?_, ?_, ?_, ?_, ?_⟩
  · intro hn
    unfold jsIncludes
    simp only [welcomePrompt, hn, toList_append]
    apply containsList_append_left
    apply containsList_append_left
    apply containsList_append_left
    apply containsList_append_left
    apply containsList_append_right
    decide
  · intro hd
    unfold jsIncludes
    simp only [welcomePrompt, hd, toList_append]
    apply containsList_append_left
    apply containsList_append_left
    apply containsList_append_left
    apply containsList_append_right
    decide
  · intro hg
    unfold jsIncludes
    simp only [welcomePrompt, hg, toList_append]
    apply containsList_append_left
    apply containsList_append_left
    apply containsList_append_right
    decide
  · intro hu
    unfold jsIncludes
    simp only [welcomePrompt, hu, toList_append]
    apply containsList_append_left
    apply containsList_append_right
    decide
  · intro hb
    unfold jsIncludes
    simp only [welcomePrompt, hb, toList_append]
    apply containsList_append_right
    decide

set_option maxRecDepth 40000 in
theorem welcome_fallback_and_prompt_witness :
    buildWelcomeMessage ⟨none, none, none, none, none⟩ none =
      "Registration complete for friend. Welcome!" ∧
    jsIncludes (welcomePrompt ⟨none, none, none, none, none⟩)
      "- Date of birth: not provided" = true ∧
    jsIncludes (welcomePrompt ⟨none, none, none, none, none⟩)
      "- Gender: not provided" = true ∧
    jsIncludes (welcomePrompt ⟨none, none, none, none, none⟩)
      "- Uses budget app: not provided" = true ∧
    jsIncludes (welcomePrompt ⟨none, none, none, none, none⟩)
      "- Budget app name: not provided" = true := by
  have h := welcome_fallback_and_prompt ⟨none, none, none, none, none⟩
  exact ⟨h.1.trans (by decide), h.2.2.1 rfl, h.2.2.2.1 rfl, h.2.2.2.2.1 rfl,
    h.2.2.2.2.2 rfl⟩
